import Mathlib

/-!
Verification of the answer-pointer decoder of the biomedical question
answering model (`biomedical_qa/models/qa_pointer.py`).

Scores are modelled as extended rationals (`WithBot Rat`), with the bottom
element standing for the minus-infinity value used by the masking helpers.
Tensors along the time axis are modelled as functions from positions to
scores (score rows) or as lists (token sequences).
-/

/-- A per-position score: a rational, or bottom for a masked (minus infinity)
position. -/
abbrev Score := WithBot ℚ

/-- Index of the maximum of the score row `f` over positions `0, ..., n-1`,
ties broken by the lowest index (the behaviour of `tf.arg_max` assumed by the
code and required by the spec's determinism note). -/
def argmaxIdx (f : ℕ → Score) : ℕ → ℕ
  | 0 => 0
  | n + 1 => if f (argmaxIdx f n) < f n then n else argmaxIdx f n

/-- Modelled from the spec: `tfutil.mask_for_lengths` (module `biomedical_qa.tfutil`,
not under `src/`). Per spec sections 4.4 and 4.5, it produces an additive mask of
width `maxLen` whose masked positions carry minus infinity (bottom) and whose
unmasked positions carry zero; with `maskRight = true` the positions at index
`len` and beyond are masked, with `maskRight = false` the positions strictly
before index `len` are masked. -/
def maskForLengths (len maxLen : ℕ) (maskRight : Bool) : ℕ → Score :=
  fun j => if maskRight then (if len ≤ j then ⊥ else 0) else (if j < len then ⊥ else 0)

/-- Modelled from the spec: `_highway_maxout_network` (module
`biomedical_qa.models.rnn_cell`, not under `src/`). Per spec section 4.4 it maps
the decoder input and the matched context states to one real score per context
position; `raw` abstracts the scores produced by the (opaque, fixed) weights,
and positions at index `len` and beyond are masked to minus infinity so that no
downstream argmax can select them. -/
def highwayMaxoutScores (raw : ℕ → ℚ) (len : ℕ) : ℕ → Score :=
  fun j => if j < len then (raw j : Score) else ⊥

/-- Elementwise addition of two score rows (the translation of adding two
score tensors). -/
def addScores (a b : ℕ → Score) : ℕ → Score := fun j => a j + b j

/-- Source `qa_pointer.py` line 14. -/
def MAX_ANSWER_LENGTH_HEURISTIC : ℕ := 10

/-- The `hmn` wrapper of `_spn_answer_layer_impl` (source lines 252-260): every
highway-maxout invocation of the SPN path passes `context_length - 1` as the
usable length, so that the null word is never selected. -/
def spnHmn (raw : ℕ → ℚ) (contextLength : ℕ) : ℕ → Score :=
  highwayMaxoutScores raw (contextLength - 1)

/-- Evaluation-time SPN end scores (source lines 280-292): the raw end scores of
`hmn` plus the left mask at the start pointer plus the right mask at
`start + MAX_ANSWER_LENGTH_HEURISTIC + 1`, both of width
`embedder.max_length + 1 = maxLen`. -/
def spnEndScoresEval (rawEnd : ℕ → ℚ) (contextLength maxLen startPointer : ℕ) : ℕ → Score :=
  addScores
    (addScores (spnHmn rawEnd contextLength)
      (maskForLengths startPointer maxLen false))
    (maskForLengths (startPointer + MAX_ANSWER_LENGTH_HEURISTIC + 1) maxLen true)

/-- The end position the beam decoder selects for a fixed (example, start) row
at evaluation time: the stable argmax of the masked end scores (spec section
4.7: softmax then top-k with lowest-index tie-breaking; softmax is monotone, so
the rank-1 selection is the argmax). -/
def spnSelectedEnd (rawEnd : ℕ → ℚ) (contextLength maxLen startPointer : ℕ) : ℕ :=
  argmaxIdx (spnEndScoresEval rawEnd contextLength maxLen startPointer) maxLen

/-- The effective beam size of the SPN decoder (source lines 219-222):
`tf.cond(self.eval, lambda: self.beam_size, lambda: tf.constant(1))`. -/
def spnEffectiveBeamSize (isEval : Bool) (beamSizeVariable : ℕ) : ℕ :=
  if isEval then beamSizeVariable else 1

/-- The start pointer the SPN end scorer consumes (source lines 274-277):
the beam-predicted start at evaluation time, the fed gold start pointer during
training. -/
def spnStartPointerChoice (isEval : Bool) (predictedStartPointer goldStartPointer : ℕ) : ℕ :=
  if isEval then predictedStartPointer else goldStartPointer

/-- Per-example state of the dynamic pointer decoder loop (source lines
161-210): the stability flag, the current start and end predictions, and the
recorded per-iteration raw score rows. -/
structure DpnState where
  isStable : Bool
  currentStart : ℕ
  currentEnd : ℕ
  startScores : List (ℕ → Score)
  endScores : List (ℕ → Score)

/-- Loop-entry state (source lines 164-167): the stability flag starts false
and the current pointers are first written by iteration 0. -/
def dpnInit : DpnState :=
  { isStable := false, currentStart := 0, currentEnd := 0, startScores := [], endScores := [] }

/-- One iteration of the dynamic pointer decoder (source lines 169-210) for a
single example. `ss i` and `es i` are the per-iteration start and end score
rows produced by the highway-maxout network (opaque weights, so quantified);
the end argmax is taken over the scores plus the left mask at the chosen start
(heuristic of lines 191-193), while the recorded rows are the raw scores
(lines 209-210). For `i > 0` the stability flag latches and freezes the
current predictions (lines 198-207). -/
def dpnIter (ss es : ℕ → ℕ → Score) (maxLen i : ℕ) (st : DpnState) : DpnState :=
  let nextStartScores := ss i
  let nextStart := argmaxIdx nextStartScores maxLen
  let nextEndScores := es i
  let nextEndScoresHeuristic := addScores nextEndScores (maskForLengths nextStart maxLen false)
  let nextEnd := argmaxIdx nextEndScoresHeuristic maxLen
  if i = 0 then
    { isStable := st.isStable
      currentStart := nextStart
      currentEnd := nextEnd
      startScores := st.startScores ++ [nextStartScores]
      endScores := st.endScores ++ [nextEndScores] }
  else
    let stable := st.isStable || (nextStart == st.currentStart && nextEnd == st.currentEnd)
    { isStable := stable
      currentStart := if stable then st.currentStart else nextStart
      currentEnd := if stable then st.currentEnd else nextEnd
      startScores := st.startScores ++ [nextStartScores]
      endScores := st.endScores ++ [nextEndScores] }

/-- The first `n` iterations of the dynamic pointer decoder loop. -/
def dpnLoop (ss es : ℕ → ℕ → Score) (maxLen : ℕ) : ℕ → DpnState
  | 0 => dpnInit
  | n + 1 => dpnIter ss es maxLen n (dpnLoop ss es maxLen n)

/-- The full decoder loop of `_dpn_answer_layer`: `for i in range(4)`
(source line 169). -/
def dpnAnswerLayerRun (ss es : ℕ → ℕ → Score) (maxLen : ℕ) : DpnState :=
  dpnLoop ss es maxLen 4

/-- The returned start pointer of `_dpn_answer_layer` for an answer slot
(source line 213): the final current start of the originating example, gathered
through the answer partition. `ss e i` is the start score row of example `e`
at iteration `i`. -/
def dpnStartPointer (ss es : ℕ → ℕ → ℕ → Score) (maxLen : ℕ)
    (answerPartition : ℕ → ℕ) (slot : ℕ) : ℕ :=
  (dpnAnswerLayerRun (ss (answerPartition slot)) (es (answerPartition slot)) maxLen).currentStart

/-- The returned end pointer of `_dpn_answer_layer` for an answer slot
(source line 212). -/
def dpnEndPointer (ss es : ℕ → ℕ → ℕ → Score) (maxLen : ℕ)
    (answerPartition : ℕ → ℕ) (slot : ℕ) : ℕ :=
  (dpnAnswerLayerRun (ss (answerPartition slot)) (es (answerPartition slot)) maxLen).currentEnd

/-- Semantics of `tf.reverse_sequence(tensor, lengths, 1)` for one example:
reverse the first `len` positions of the time axis, keep the rest. -/
def reverseSequence {α : Type} (xs : List α) (len : ℕ) : List α :=
  (xs.take len).reverse ++ xs.drop len

/-- The null-token augmenter `append_null_word` (source lines 104-114) for one
example: reverse up to the valid length, prepend the null word along the time
axis, reverse again with length `len + 1`; returns the new sequence and the
new length. -/
def appendNullWord {α : Type} (xs : List α) (len : ℕ) (nullWord : α) : List α × ℕ :=
  (reverseSequence (nullWord :: reverseSequence xs len) (len + 1), len + 1)

/-- The architectural fields of a constructed `QAPointerModel` (constructor,
source lines 18-30). Fields of the external transfer model and device list are
collaborator state outside this core (spec section 1) and are omitted. -/
structure QAPointerModelArch where
  size : ℕ
  name : String
  composition : String
  answer_layer_depth : ℕ
  answer_layer_poolsize : ℕ
  answer_layer_type : String

/-- A configuration dictionary as read and written by `get_config` and
`create_from_config`. The three optional keys may be absent (older configs);
the remaining keys modelled here are always written by `get_config` (source
lines 334-341, with `size` and `name` from the base model config). -/
structure ConfigDict where
  size : ℕ
  name : String
  type : String
  composition : String
  answer_layer_depth : Option ℕ
  answer_layer_poolsize : Option ℕ
  answer_layer_type : Option String

/-- The `get_config` method (source lines 334-341). -/
def get_config (m : QAPointerModelArch) : ConfigDict :=
  { size := m.size
    name := m.name
    type := "pointer"
    composition := m.composition
    answer_layer_depth := some m.answer_layer_depth
    answer_layer_poolsize := some m.answer_layer_poolsize
    answer_layer_type := some m.answer_layer_type }

/-- The `create_from_config` static method (source lines 343-374): missing
optional keys are filled with the backward-compatibility defaults
`answer_layer_depth = 1`, `answer_layer_poolsize = 8`,
`answer_layer_type = "dpn"`, then the constructor stores the values. -/
def create_from_config (c : ConfigDict) : QAPointerModelArch :=
  { size := c.size
    name := c.name
    composition := c.composition
    answer_layer_depth := c.answer_layer_depth.getD 1
    answer_layer_poolsize := c.answer_layer_poolsize.getD 8
    answer_layer_type := c.answer_layer_type.getD "dpn" }

/-- Outcome of `QAPointerModel._init` (source lines 34-102): either a built
model or a raised error, in both cases together with the graph-building steps
(in program order) that completed before the outcome. -/
inductive InitOutcome where
  | ok (graphNodesBuilt : List String)
  | err (graphNodesBuilt : List String) (message : String)
deriving DecidableEq

/-- The graph-building steps of `_init` that run before the answer-layer-type
branch is reached (source lines 44-89): the mode and beam-size variables, the
preprocessing layer (encoders, question attention, null-word augmentation) and
the match layer. -/
def graphNodesBeforePointerLayer : List String :=
  ["is_eval", "beam_size", "preprocessing_layer", "match_layer"]

/-- Control-flow embedding of `QAPointerModel._init` (source lines 34-102): the
steps of `graphNodesBeforePointerLayer` always run first; then the answer layer
type is dispatched, and any type other than `"dpn"` and `"spn"` raises
`ValueError("Unknown answer layer type: ...")` (source lines 92-100). -/
def qaPointerInit (answerLayerType : String) : InitOutcome :=
  if answerLayerType = "dpn" then
    InitOutcome.ok (graphNodesBeforePointerLayer ++ ["pointer_layer"])
  else if answerLayerType = "spn" then
    InitOutcome.ok (graphNodesBeforePointerLayer ++ ["pointer_layer"])
  else
    InitOutcome.err graphNodesBeforePointerLayer
      ("Unknown answer layer type: " ++ answerLayerType)

/-- Semantics of `tf.nn.dropout` for one element: with probability `keepProb`
(uniform draw `randomDraw` below `keepProb`) keep the element scaled by
`1 / keepProb`, otherwise zero it. -/
def dropoutElem (keepProb randomDraw x : ℚ) : ℚ :=
  if randomDraw < keepProb then x / keepProb else 0

/-- `tf.nn.dropout` over the matched context states (source line 245), with the
per-position uniform draws made explicit. -/
def dropoutVec (keepProb : ℚ) (randomDraw : ℕ → ℚ) (states : ℕ → ℚ) : ℕ → ℚ :=
  fun i => dropoutElem keepProb (randomDraw i) (states i)

/-- The SPN start selection pipeline (source lines 245, 262-266): dropout on
the matched states, the fixed-weight scorer (opaque, hence quantified), the
`hmn` length masking, and the stable argmax of the beam decoder. -/
def spnForwardStart (scorer : (ℕ → ℚ) → ℕ → ℚ) (keepProb : ℚ) (randomDraw : ℕ → ℚ)
    (states : ℕ → ℚ) (contextLength maxLen : ℕ) : ℕ :=
  argmaxIdx (spnHmn (scorer (dropoutVec keepProb randomDraw states)) contextLength) maxLen

/-- Concrete start score rows (same row at every iteration) used to exhibit
the divergence of C10: position 1 carries the maximal start score. -/
def dpnDemoStartScores : ℕ → ℕ → Score :=
  fun _ j => if j = 1 then ((1 : ℚ) : Score) else ((0 : ℚ) : Score)

/-- Concrete end score rows used to exhibit the divergence of C10: the raw
argmax is position 0, which lies left of the chosen start 1 and is therefore
removed by the heuristic mask. -/
def dpnDemoEndScores : ℕ → ℕ → Score :=
  fun _ j => if j = 0 then ((7 : ℚ) : Score) else if j = 1 then ((1 : ℚ) : Score)
    else ((2 : ℚ) : Score)

/-- Concrete DPN start score rows for the C9 contrast: the highway-maxout
network invoked with the full augmented context length 3 (as `_dpn_answer_layer`
does, source lines 176-179), with the raw score peaked at the sentinel
position 2. -/
def dpnSentinelStartScores : ℕ → ℕ → Score :=
  fun _ => highwayMaxoutScores (fun j => if j = 2 then (1 : ℚ) else 0) 3

/-- Constant-zero DPN end score rows accompanying `dpnSentinelStartScores`. -/
def dpnSentinelEndScores : ℕ → ℕ → Score :=
  fun _ _ => ((0 : ℚ) : Score)

theorem argmaxIdx_lt (f : ℕ → Score) (n : ℕ) (hn : 0 < n) : argmaxIdx f n < n := by
  induction n with
  | zero => exact absurd hn (lt_irrefl 0)
  | succ m ih =>
    rw [argmaxIdx]
    by_cases h : f (argmaxIdx f m) < f m
    · simp [h]
    · simp only [h, if_false]
      rcases Nat.eq_zero_or_pos m with hm | hm
      · subst hm; simp [argmaxIdx]
      · exact lt_trans (ih hm) (Nat.lt_succ_self m)

theorem le_argmaxIdx (f : ℕ → Score) (n i : ℕ) (hi : i < n) :
    f i ≤ f (argmaxIdx f n) := by
  induction n with
  | zero => exact absurd hi (Nat.not_lt_zero i)
  | succ m ih =>
    rw [argmaxIdx]
    by_cases h : f (argmaxIdx f m) < f m
    · simp only [h, if_true]
      rcases Nat.lt_succ_iff_lt_or_eq.mp hi with hi2 | hi2
      · exact le_of_lt (lt_of_le_of_lt (ih hi2) h)
      · subst hi2; exact le_refl _
    · simp only [h, if_false]
      rcases Nat.lt_succ_iff_lt_or_eq.mp hi with hi2 | hi2
      · exact ih hi2
      · subst hi2; exact le_of_not_lt h

theorem lt_argmaxIdx_of_lt (f : ℕ → Score) (n i : ℕ) (hi : i < argmaxIdx f n) :
    f i < f (argmaxIdx f n) := by
  induction n with
  | zero => simp [argmaxIdx] at hi
  | succ m ih =>
    rw [argmaxIdx] at hi ⊢
    by_cases h : f (argmaxIdx f m) < f m
    · simp only [h, if_true] at hi ⊢
      exact lt_of_le_of_lt (le_argmaxIdx f m i hi) h
    · simp only [h, if_false] at hi ⊢
      exact ih hi

/-- C6: in the SPN decoder the effective beam size is 1 in training mode and
equals the externally configured beam-size variable in evaluation mode, and in
training mode the end scorer consumes the fed gold start pointer rather than
the predicted one (teacher forcing). -/
theorem spn_beam_size_modes (k p g : ℕ) :
    spnEffectiveBeamSize false k = 1 ∧
    spnEffectiveBeamSize true k = k ∧
    spnStartPointerChoice false p g = g ∧
    spnStartPointerChoice true p g = p :=
  ⟨rfl, rfl, rfl, rfl⟩

/-- C4: `create_from_config` after `get_config` reproduces the same
`answer_layer_type`, `answer_layer_depth`, `answer_layer_poolsize` and
`composition`; and a config missing the optional keys gets the defaults
depth 1, poolsize 8, type "dpn". -/
theorem config_roundtrip_and_defaults (m : QAPointerModelArch) (c : ConfigDict)
    (hd : c.answer_layer_depth = none) (hp : c.answer_layer_poolsize = none)
    (ht : c.answer_layer_type = none) :
    (create_from_config (get_config m)).answer_layer_type = m.answer_layer_type ∧
    (create_from_config (get_config m)).answer_layer_depth = m.answer_layer_depth ∧
    (create_from_config (get_config m)).answer_layer_poolsize = m.answer_layer_poolsize ∧
    (create_from_config (get_config m)).composition = m.composition ∧
    (create_from_config c).answer_layer_depth = 1 ∧
    (create_from_config c).answer_layer_poolsize = 8 ∧
    (create_from_config c).answer_layer_type = "dpn" := by
  refine ⟨rfl, rfl, rfl, rfl, ?_, ?_, ?_⟩ <;> simp [create_from_config, hd, hp, ht]

/-- Witness for C4 at a concrete model and a concrete legacy config with all
three optional keys absent. -/
theorem config_roundtrip_and_defaults_witness :
    (create_from_config (get_config ⟨100, "QAPointerModel", "LSTM", 2, 4, "spn"⟩)).answer_layer_type = "spn" ∧
    (create_from_config (get_config ⟨100, "QAPointerModel", "LSTM", 2, 4, "spn"⟩)).answer_layer_depth = 2 ∧
    (create_from_config (get_config ⟨100, "QAPointerModel", "LSTM", 2, 4, "spn"⟩)).answer_layer_poolsize = 4 ∧
    (create_from_config (get_config ⟨100, "QAPointerModel", "LSTM", 2, 4, "spn"⟩)).composition = "LSTM" ∧
    (create_from_config ⟨50, "old", "pointer", "GRU", none, none, none⟩).answer_layer_depth = 1 ∧
    (create_from_config ⟨50, "old", "pointer", "GRU", none, none, none⟩).answer_layer_poolsize = 8 ∧
    (create_from_config ⟨50, "old", "pointer", "GRU", none, none, none⟩).answer_layer_type = "dpn" :=
  config_roundtrip_and_defaults ⟨100, "QAPointerModel", "LSTM", 2, 4, "spn"⟩
    ⟨50, "old", "pointer", "GRU", none, none, none⟩ rfl rfl rfl

/-- C5 counterexample: constructing with the unknown answer layer type "foo"
does raise the configuration error, but only after the preprocessing and match
layer graph nodes were already created, so the claim that no graph nodes are
created before the error is raised is false. -/
theorem init_unknown_type_counterexample :
    qaPointerInit "foo" =
      InitOutcome.err ["is_eval", "beam_size", "preprocessing_layer", "match_layer"]
        "Unknown answer layer type: foo" ∧
    ["is_eval", "beam_size", "preprocessing_layer", "match_layer"] ≠ ([] : List String) := by
  constructor
  · decide
  · decide

/-- C5 amended: for every answer layer type other than "dpn" and "spn",
construction fails fast with the configuration error
`ValueError("Unknown answer layer type: ...")` raised at the answer-layer
dispatch, before any pointer-layer graph nodes are created but after the
preprocessing-layer and match-layer graph nodes have been built. -/
theorem init_unknown_type_fails_at_pointer_layer (t : String)
    (hdpn : t ≠ "dpn") (hspn : t ≠ "spn") :
    qaPointerInit t =
      InitOutcome.err graphNodesBeforePointerLayer ("Unknown answer layer type: " ++ t) := by
  simp [qaPointerInit, hdpn, hspn]

/-- Witness for the amended C5 at the concrete unknown type "foo". -/
theorem init_unknown_type_fails_witness :
    qaPointerInit "foo" =
      InitOutcome.err graphNodesBeforePointerLayer "Unknown answer layer type: foo" :=
  init_unknown_type_fails_at_pointer_layer "foo" (by decide) (by decide)

/-- C8: with fixed (opaque) scorer weights and dropout neutralized by
`keep_prob = 1`, the SPN start selection does not depend on the dropout draws
(the only source of hidden randomness), the evaluation-time end selection does
not either, and the argmax used throughout breaks ties by the lowest index.
Two runs on the same batch are therefore the same value of a pure function. -/
theorem forward_pass_deterministic (scorer : (ℕ → ℚ) → ℕ → ℚ) (states : ℕ → ℚ)
    (contextLength maxLen : ℕ) (r1 r2 : ℕ → ℚ)
    (h1 : ∀ i, r1 i < 1) (h2 : ∀ i, r2 i < 1) :
    spnForwardStart scorer 1 r1 states contextLength maxLen =
      spnForwardStart scorer 1 r2 states contextLength maxLen ∧
    (∀ s, spnSelectedEnd (scorer (dropoutVec 1 r1 states)) contextLength maxLen s =
      spnSelectedEnd (scorer (dropoutVec 1 r2 states)) contextLength maxLen s) ∧
    (∀ f : ℕ → Score, ∀ n i : ℕ, i < argmaxIdx f n → f i < f (argmaxIdx f n)) := by
  have hdrop : ∀ r : ℕ → ℚ, (∀ i, r i < 1) → dropoutVec 1 r states = states := by
    intro r hr
    funext i
    simp [dropoutVec, dropoutElem, hr i]
  refine ⟨?_, ?_, fun f n i hi => lt_argmaxIdx_of_lt f n i hi⟩
  · simp only [spnForwardStart, hdrop r1 h1, hdrop r2 h2]
  · intro s
    simp only [hdrop r1 h1, hdrop r2 h2]

/-- Witness for C8 at a concrete scorer, two distinct dropout draws and a
concrete batch. -/
theorem forward_pass_deterministic_witness :
    spnForwardStart (fun s => s) 1 (fun _ => 0) (fun _ => 0) 3 3 =
      spnForwardStart (fun s => s) 1 (fun _ => (1 : ℚ) / 2) (fun _ => 0) 3 3 :=
  (forward_pass_deterministic (fun s => s) (fun _ => 0) 3 3 (fun _ => 0) (fun _ => (1 : ℚ) / 2)
    (fun _ => by norm_num) (fun _ => by norm_num)).1

theorem appendNullWord_fst {α : Type} (xs : List α) (len : ℕ) (w : α)
    (hlen : len ≤ xs.length) :
    (appendNullWord xs len w).1 = xs.take len ++ w :: xs.drop len := by
  have htake : (xs.take len).length = len := by
    rw [List.length_take]; omega
  show reverseSequence (w :: ((xs.take len).reverse ++ xs.drop len)) (len + 1) = _
  unfold reverseSequence
  have hrevlen : ((xs.take len).reverse).length = len := by
    rw [List.length_reverse, htake]
  have h1 : (w :: ((xs.take len).reverse ++ xs.drop len)).take (len + 1)
      = w :: (xs.take len).reverse := by
    rw [List.take_succ_cons, List.take_left' hrevlen]
  have h2 : (w :: ((xs.take len).reverse ++ xs.drop len)).drop (len + 1) = xs.drop len := by
    rw [List.drop_succ_cons, List.drop_left' hrevlen]
  rw [h1, h2]
  simp [List.reverse_cons, List.reverse_reverse]

/-- C3: for a sequence of valid length `len` (at least 1, at most the padded
length), `append_null_word` reports length `len + 1`, the output has one more
position, the sentinel appears exactly once, at 0-indexed position `len`, all
original tokens precede it in their original order, and every position at
index at least `len + 1` holds the original padding (shifted by one). -/
theorem append_null_word_spec {α : Type} [DecidableEq α] (xs : List α) (len : ℕ) (w : α)
    (hpos : 1 ≤ len) (hlen : len ≤ xs.length) (hw : w ∉ xs) :
    (appendNullWord xs len w).2 = len + 1 ∧
    (appendNullWord xs len w).1.length = xs.length + 1 ∧
    (appendNullWord xs len w).1.count w = 1 ∧
    (appendNullWord xs len w).1[len]? = some w ∧
    (∀ i, i < len → (appendNullWord xs len w).1[i]? = xs[i]?) ∧
    (∀ i, len + 1 ≤ i → (appendNullWord xs len w).1[i]? = xs[i - 1]?) := by
  have hfst := appendNullWord_fst xs len w hlen
  have htake : (xs.take len).length = len := by
    rw [List.length_take]; omega
  refine ⟨rfl, ?_, ?_, ?_, ?_, ?_⟩
  · rw [hfst]
    simp only [List.length_append, List.length_cons, List.length_drop, htake]
    omega
  · have hwt : w ∉ xs.take len := fun h => hw (List.mem_of_mem_take h)
    have hwd : w ∉ xs.drop len := fun h => hw (List.mem_of_mem_drop h)
    rw [hfst, List.count_append, List.count_cons_self,
        List.count_eq_zero.mpr hwt, List.count_eq_zero.mpr hwd]
  · rw [hfst, List.getElem?_append_right (le_of_eq htake)]
    simp [htake]
  · intro i hi
    rw [hfst, List.getElem?_append_left (by rw [htake]; exact hi)]
    exact List.getElem?_take_of_lt hi
  · intro i hi
    rw [hfst, List.getElem?_append_right (by rw [htake]; omega)]
    rw [htake]
    have hsub : i - len = (i - len - 1) + 1 := by omega
    rw [hsub, List.getElem?_cons_succ, List.getElem?_drop]
    congr 1
    omega

/-- Witness for C3 at the concrete sequence [10, 20, 30] with valid length 2
and sentinel 99. -/
theorem append_null_word_spec_witness :
    (appendNullWord [10, 20, 30] 2 99).2 = 2 + 1 ∧
    (appendNullWord [10, 20, 30] 2 99).1.length = 3 + 1 ∧
    (appendNullWord [10, 20, 30] 2 99).1.count 99 = 1 ∧
    (appendNullWord [10, 20, 30] 2 99).1[2]? = some 99 := by
  have h := append_null_word_spec [10, 20, 30] 2 99 (by decide) (by decide) (by decide)
  exact ⟨h.1, h.2.1, h.2.2.1, h.2.2.2.1⟩

/-- C2: at evaluation time, for any chosen start `s` in the selectable range,
the SPN end scores at positions strictly before `s` or strictly after
`s + MAX_ANSWER_LENGTH_HEURISTIC` are masked to minus infinity (effectively
zero probability), and the selected end position therefore lies in the closed
interval from `s` to `s + MAX_ANSWER_LENGTH_HEURISTIC`. -/
theorem spn_eval_end_selection_window (rawEnd : ℕ → ℚ) (contextLength maxLen startPointer : ℕ)
    (hstart : startPointer + 1 < contextLength) (hlen : contextLength ≤ maxLen) :
    (∀ j, j < startPointer ∨ startPointer + MAX_ANSWER_LENGTH_HEURISTIC < j →
        spnEndScoresEval rawEnd contextLength maxLen startPointer j = ⊥) ∧
    startPointer ≤ spnSelectedEnd rawEnd contextLength maxLen startPointer ∧
    spnSelectedEnd rawEnd contextLength maxLen startPointer
      ≤ startPointer + MAX_ANSWER_LENGTH_HEURISTIC := by
  have hrow : ∀ j, spnEndScoresEval rawEnd contextLength maxLen startPointer j =
      ((if j < contextLength - 1 then ((rawEnd j : ℚ) : Score) else ⊥)
        + (if j < startPointer then (⊥ : Score) else 0))
        + (if startPointer + MAX_ANSWER_LENGTH_HEURISTIC + 1 ≤ j then (⊥ : Score) else 0) := by
    intro j; rfl
  have hmask : ∀ j, j < startPointer ∨ startPointer + MAX_ANSWER_LENGTH_HEURISTIC < j →
      spnEndScoresEval rawEnd contextLength maxLen startPointer j = ⊥ := by
    intro j hj
    rw [hrow j]
    rcases hj with hj | hj
    · rw [if_pos hj, WithBot.add_bot, WithBot.bot_add]
    · rw [if_pos (by omega : startPointer + MAX_ANSWER_LENGTH_HEURISTIC + 1 ≤ j),
          WithBot.add_bot]
  have hsval : spnEndScoresEval rawEnd contextLength maxLen startPointer startPointer
      = ((rawEnd startPointer : ℚ) : Score) := by
    rw [hrow]
    rw [if_pos (by omega : startPointer < contextLength - 1),
        if_neg (lt_irrefl startPointer),
        if_neg (by omega : ¬ (startPointer + MAX_ANSWER_LENGTH_HEURISTIC + 1 ≤ startPointer))]
    simp
  have hsm : startPointer < maxLen := by omega
  have hle := le_argmaxIdx (spnEndScoresEval rawEnd contextLength maxLen startPointer)
    maxLen startPointer hsm
  have hbot : (⊥ : Score) < spnEndScoresEval rawEnd contextLength maxLen startPointer
      (argmaxIdx (spnEndScoresEval rawEnd contextLength maxLen startPointer) maxLen) := by
    refine lt_of_lt_of_le ?_ hle
    rw [hsval]
    exact WithBot.bot_lt_coe _
  refine ⟨hmask, ?_, ?_⟩
  · by_contra hcon
    push_neg at hcon
    rw [spnSelectedEnd] at hcon
    rw [hmask _ (Or.inl hcon)] at hbot
    exact absurd hbot (lt_irrefl ⊥)
  · by_contra hcon
    push_neg at hcon
    rw [spnSelectedEnd] at hcon
    rw [hmask _ (Or.inr hcon)] at hbot
    exact absurd hbot (lt_irrefl ⊥)

/-- Witness for C2 at start pointer 1 in a context of augmented length 5
padded to width 6. -/
theorem spn_eval_end_selection_window_witness :
    1 ≤ spnSelectedEnd (fun _ => 0) 5 6 1 ∧
    spnSelectedEnd (fun _ => 0) 5 6 1 ≤ 1 + MAX_ANSWER_LENGTH_HEURISTIC :=
  (spn_eval_end_selection_window (fun _ => 0) 5 6 1 (by omega) (by omega)).2

theorem dpnIter_isStable_of_pos (ss es : ℕ → ℕ → Score) (maxLen i : ℕ) (st : DpnState)
    (hi : i ≠ 0) :
    (dpnIter ss es maxLen i st).isStable =
      (st.isStable || (argmaxIdx (ss i) maxLen == st.currentStart &&
        argmaxIdx (addScores (es i) (maskForLengths (argmaxIdx (ss i) maxLen) maxLen false))
          maxLen == st.currentEnd)) := by
  simp [dpnIter, hi]

theorem dpnIter_currentStart_of_pos (ss es : ℕ → ℕ → Score) (maxLen i : ℕ) (st : DpnState)
    (hi : i ≠ 0) :
    (dpnIter ss es maxLen i st).currentStart =
      (if (st.isStable || (argmaxIdx (ss i) maxLen == st.currentStart &&
          argmaxIdx (addScores (es i) (maskForLengths (argmaxIdx (ss i) maxLen) maxLen false))
            maxLen == st.currentEnd))
        then st.currentStart else argmaxIdx (ss i) maxLen) := by
  simp [dpnIter, hi]

theorem dpnIter_currentEnd_of_pos (ss es : ℕ → ℕ → Score) (maxLen i : ℕ) (st : DpnState)
    (hi : i ≠ 0) :
    (dpnIter ss es maxLen i st).currentEnd =
      (if (st.isStable || (argmaxIdx (ss i) maxLen == st.currentStart &&
          argmaxIdx (addScores (es i) (maskForLengths (argmaxIdx (ss i) maxLen) maxLen false))
            maxLen == st.currentEnd))
        then st.currentEnd
        else argmaxIdx (addScores (es i) (maskForLengths (argmaxIdx (ss i) maxLen) maxLen false))
          maxLen) := by
  simp [dpnIter, hi]

theorem dpn_latch_step (ss es : ℕ → ℕ → Score) (maxLen i : ℕ) (st : DpnState)
    (hi : i ≠ 0) (hst : st.isStable = true) :
    (dpnIter ss es maxLen i st).isStable = true ∧
    (dpnIter ss es maxLen i st).currentStart = st.currentStart ∧
    (dpnIter ss es maxLen i st).currentEnd = st.currentEnd := by
  refine ⟨?_, ?_, ?_⟩
  · rw [dpnIter_isStable_of_pos ss es maxLen i st hi, hst, Bool.true_or]
  · rw [dpnIter_currentStart_of_pos ss es maxLen i st hi, hst, Bool.true_or, if_pos rfl]
  · rw [dpnIter_currentEnd_of_pos ss es maxLen i st hi, hst, Bool.true_or, if_pos rfl]

/-- C1: in the dynamic pointer decoder, once the (start, end) prediction of an
iteration equals the prediction of the previous iteration, the per-example
stability flag latches true and the current start and end predictions equal
the frozen values in every subsequent iteration, whatever the raw
per-iteration score rows (and hence their argmaxes) are. -/
theorem dpn_stabilization_latch (ss es : ℕ → ℕ → Score) (maxLen i : ℕ) (hi : 1 ≤ i)
    (hstart : (dpnLoop ss es maxLen (i + 1)).currentStart = (dpnLoop ss es maxLen i).currentStart)
    (hend : (dpnLoop ss es maxLen (i + 1)).currentEnd = (dpnLoop ss es maxLen i).currentEnd) :
    ∀ m, i + 1 ≤ m →
      (dpnLoop ss es maxLen m).isStable = true ∧
      (dpnLoop ss es maxLen m).currentStart = (dpnLoop ss es maxLen (i + 1)).currentStart ∧
      (dpnLoop ss es maxLen m).currentEnd = (dpnLoop ss es maxLen (i + 1)).currentEnd := by
  have hi0 : i ≠ 0 := by omega
  have hunf : dpnLoop ss es maxLen (i + 1) = dpnIter ss es maxLen i (dpnLoop ss es maxLen i) :=
    rfl
  have hstable : (dpnLoop ss es maxLen (i + 1)).isStable = true := by
    by_contra hc
    rw [Bool.not_eq_true] at hc
    rw [hunf, dpnIter_isStable_of_pos ss es maxLen i (dpnLoop ss es maxLen i) hi0] at hc
    rw [hunf, dpnIter_currentStart_of_pos ss es maxLen i (dpnLoop ss es maxLen i) hi0, hc,
      if_neg (by simp)] at hstart
    rw [hunf, dpnIter_currentEnd_of_pos ss es maxLen i (dpnLoop ss es maxLen i) hi0, hc,
      if_neg (by simp)] at hend
    rw [Bool.or_eq_false_iff] at hc
    have hbeq : (argmaxIdx (ss i) maxLen == (dpnLoop ss es maxLen i).currentStart &&
        argmaxIdx (addScores (es i) (maskForLengths (argmaxIdx (ss i) maxLen) maxLen false))
          maxLen == (dpnLoop ss es maxLen i).currentEnd) = true := by
      rw [Bool.and_eq_true, beq_iff_eq, beq_iff_eq]
      exact ⟨hstart, hend⟩
    rw [hc.2] at hbeq
    exact Bool.false_ne_true hbeq
  intro m hm
  induction m, hm using Nat.le_induction with
  | base => exact ⟨hstable, rfl, rfl⟩
  | succ m hm ih =>
    obtain ⟨ihs, ihcs, ihce⟩ := ih
    have hm0 : m ≠ 0 := by omega
    have hstep := dpn_latch_step ss es maxLen m (dpnLoop ss es maxLen m) hm0 ihs
    have hunfm : dpnLoop ss es maxLen (m + 1) = dpnIter ss es maxLen m (dpnLoop ss es maxLen m) :=
      rfl
    rw [hunfm]
    exact ⟨hstep.1, by rw [hstep.2.1, ihcs], by rw [hstep.2.2, ihce]⟩

/-- Witness for C1 at constant-zero score rows of width 2, where the
prediction of iteration 1 repeats the prediction of iteration 0. -/
theorem dpn_stabilization_latch_witness :
    (dpnLoop (fun _ _ => ((0 : ℚ) : Score)) (fun _ _ => ((0 : ℚ) : Score)) 2 4).isStable = true ∧
    (dpnLoop (fun _ _ => ((0 : ℚ) : Score)) (fun _ _ => ((0 : ℚ) : Score)) 2 4).currentStart =
      (dpnLoop (fun _ _ => ((0 : ℚ) : Score)) (fun _ _ => ((0 : ℚ) : Score)) 2 2).currentStart ∧
    (dpnLoop (fun _ _ => ((0 : ℚ) : Score)) (fun _ _ => ((0 : ℚ) : Score)) 2 4).currentEnd =
      (dpnLoop (fun _ _ => ((0 : ℚ) : Score)) (fun _ _ => ((0 : ℚ) : Score)) 2 2).currentEnd :=
  dpn_stabilization_latch (fun _ _ => ((0 : ℚ) : Score)) (fun _ _ => ((0 : ℚ) : Score)) 2 1
    (le_refl 1)
    (by simp [dpnLoop, dpnIter, dpnInit, argmaxIdx, addScores, maskForLengths])
    (by simp [dpnLoop, dpnIter, dpnInit, argmaxIdx, addScores, maskForLengths])
    4 (by omega)

/-- C7: the dynamic pointer decoder runs exactly 4 iterations with no early
exit (the recorded per-iteration start and end score lists have exactly 4
entries for every possible score stream), and the returned final pointers are
gathered through the answer partition, so any two answer slots mapped to the
same context example receive the same start and end prediction. -/
theorem dpn_four_iterations_and_partition_gather (ss es : ℕ → ℕ → ℕ → Score) (maxLen : ℕ)
    (answerPartition : ℕ → ℕ) (e a b : ℕ) (hab : answerPartition a = answerPartition b) :
    (dpnAnswerLayerRun (ss e) (es e) maxLen).startScores.length = 4 ∧
    (dpnAnswerLayerRun (ss e) (es e) maxLen).endScores.length = 4 ∧
    dpnStartPointer ss es maxLen answerPartition a = dpnStartPointer ss es maxLen answerPartition b ∧
    dpnEndPointer ss es maxLen answerPartition a = dpnEndPointer ss es maxLen answerPartition b := by
  refine ⟨?_, ?_, ?_, ?_⟩
  · simp [dpnAnswerLayerRun, dpnLoop, dpnIter, dpnInit]
  · simp [dpnAnswerLayerRun, dpnLoop, dpnIter, dpnInit]
  · simp only [dpnStartPointer, hab]
  · simp only [dpnEndPointer, hab]

/-- Witness for C7 with constant-zero score streams and two answer slots 0 and
1 sharing the originating example 0. -/
theorem dpn_four_iterations_and_partition_gather_witness :
    (dpnAnswerLayerRun ((fun _ _ _ => ((0 : ℚ) : Score)) 0) ((fun _ _ _ => ((0 : ℚ) : Score)) 0)
      3).startScores.length = 4 ∧
    (dpnAnswerLayerRun ((fun _ _ _ => ((0 : ℚ) : Score)) 0) ((fun _ _ _ => ((0 : ℚ) : Score)) 0)
      3).endScores.length = 4 ∧
    dpnStartPointer (fun _ _ _ => ((0 : ℚ) : Score)) (fun _ _ _ => ((0 : ℚ) : Score)) 3
      (fun _ => 0) 0 =
      dpnStartPointer (fun _ _ _ => ((0 : ℚ) : Score)) (fun _ _ _ => ((0 : ℚ) : Score)) 3
        (fun _ => 0) 1 ∧
    dpnEndPointer (fun _ _ _ => ((0 : ℚ) : Score)) (fun _ _ _ => ((0 : ℚ) : Score)) 3
      (fun _ => 0) 0 =
      dpnEndPointer (fun _ _ _ => ((0 : ℚ) : Score)) (fun _ _ _ => ((0 : ℚ) : Score)) 3
        (fun _ => 0) 1 :=
  dpn_four_iterations_and_partition_gather (fun _ _ _ => ((0 : ℚ) : Score))
    (fun _ _ _ => ((0 : ℚ) : Score)) 3 (fun _ => 0) 0 0 1 rfl


/-- C10: the per-iteration end score rows recorded by the dynamic pointer
decoder are the raw highway-maxout scores, without the right-masking heuristic
bias, while each iteration's end pointer is the argmax of the heuristically
masked scores; at the exhibited concrete input the argmax of the recorded row
of iteration 0 differs from the end pointer chosen at iteration 0. -/
theorem dpn_recorded_end_scores_raw (ss es : ℕ → ℕ → Score) (maxLen : ℕ) :
    (dpnAnswerLayerRun ss es maxLen).endScores = [es 0, es 1, es 2, es 3] ∧
    (dpnAnswerLayerRun ss es maxLen).startScores = [ss 0, ss 1, ss 2, ss 3] ∧
    argmaxIdx ((dpnLoop dpnDemoStartScores dpnDemoEndScores 3 1).endScores.getD 0 (fun _ => ⊥))
        3 ≠
      (dpnLoop dpnDemoStartScores dpnDemoEndScores 3 1).currentEnd := by
  refine ⟨?_, ?_, ?_⟩
  · simp [dpnAnswerLayerRun, dpnLoop, dpnIter, dpnInit]
  · simp [dpnAnswerLayerRun, dpnLoop, dpnIter, dpnInit]
  · have hrow : (dpnLoop dpnDemoStartScores dpnDemoEndScores 3 1).endScores.getD 0 (fun _ => ⊥)
        = dpnDemoEndScores 0 := by
      simp [dpnLoop, dpnIter, dpnInit]
    have hraw : argmaxIdx (dpnDemoEndScores 0) 3 = 0 := by decide
    have hstart0 : argmaxIdx (dpnDemoStartScores 0) 3 = 1 := by decide
    have hmasked : argmaxIdx (addScores (dpnDemoEndScores 0) (maskForLengths 1 3 false)) 3 = 2 := by
      simp [argmaxIdx, addScores, maskForLengths, dpnDemoEndScores]
    have hce : (dpnLoop dpnDemoStartScores dpnDemoEndScores 3 1).currentEnd = 2 := by
      show (dpnIter dpnDemoStartScores dpnDemoEndScores 3 0 dpnInit).currentEnd = 2
      rw [dpnIter]
      simp only [if_pos rfl, hstart0]
      exact hmasked
    rw [hrow, hraw, hce]
    decide

/-- C9: every highway-maxout invocation of the SPN path reduces the usable
length by one, so positions from the sentinel index `contextLength - 1` onward
are masked in both the start and the end scoring call and the selected start
can never be the sentinel; by contrast the DPN start scoring, invoked with the
full length, can select the sentinel, as the exhibited concrete run shows. -/
theorem spn_sentinel_never_selectable (rawStart : ℕ → ℚ) (contextLength maxLen : ℕ)
    (hc : 2 ≤ contextLength) (hlen : contextLength ≤ maxLen) :
    (∀ rawAny : ℕ → ℚ, ∀ j, contextLength - 1 ≤ j → spnHmn rawAny contextLength j = ⊥) ∧
    argmaxIdx (spnHmn rawStart contextLength) maxLen < contextLength - 1 ∧
    (dpnAnswerLayerRun dpnSentinelStartScores dpnSentinelEndScores 3).currentStart = 3 - 1 := by
  have hbotAll : ∀ rawAny : ℕ → ℚ, ∀ j, contextLength - 1 ≤ j →
      spnHmn rawAny contextLength j = ⊥ := by
    intro r j hj
    simp only [spnHmn, highwayMaxoutScores]
    rw [if_neg (by omega)]
  refine ⟨hbotAll, ?_, ?_⟩
  · have h0 : spnHmn rawStart contextLength 0 = ((rawStart 0 : ℚ) : Score) := by
      simp only [spnHmn, highwayMaxoutScores]
      rw [if_pos (by omega)]
    have hle := le_argmaxIdx (spnHmn rawStart contextLength) maxLen 0 (by omega)
    have hbot : (⊥ : Score) < spnHmn rawStart contextLength
        (argmaxIdx (spnHmn rawStart contextLength) maxLen) := by
      refine lt_of_lt_of_le ?_ hle
      rw [h0]
      exact WithBot.bot_lt_coe _
    by_contra hcon
    push_neg at hcon
    rw [hbotAll rawStart _ hcon] at hbot
    exact absurd hbot (lt_irrefl ⊥)
  · have hs2 : argmaxIdx (dpnSentinelStartScores 0) 3 = 2 := by decide
    have hs2all : ∀ i, argmaxIdx (dpnSentinelStartScores i) 3 = 2 := fun _ => hs2
    have hendmask : ∀ i, argmaxIdx (addScores (dpnSentinelEndScores i)
        (maskForLengths 2 3 false)) 3 = 2 := by
      intro i
      simp [argmaxIdx, addScores, maskForLengths, dpnSentinelEndScores]
    have h1s : (dpnLoop dpnSentinelStartScores dpnSentinelEndScores 3 1).currentStart = 2 := by
      show (dpnIter dpnSentinelStartScores dpnSentinelEndScores 3 0 dpnInit).currentStart = 2
      rw [dpnIter]
      simp only [if_pos rfl]
      exact hs2all 0
    have h1e : (dpnLoop dpnSentinelStartScores dpnSentinelEndScores 3 1).currentEnd = 2 := by
      show (dpnIter dpnSentinelStartScores dpnSentinelEndScores 3 0 dpnInit).currentEnd = 2
      rw [dpnIter]
      simp only [if_pos rfl, hs2all 0]
      exact hendmask 0
    have h2 : (dpnLoop dpnSentinelStartScores dpnSentinelEndScores 3 2).isStable = true ∧
        (dpnLoop dpnSentinelStartScores dpnSentinelEndScores 3 2).currentStart = 2 ∧
        (dpnLoop dpnSentinelStartScores dpnSentinelEndScores 3 2).currentEnd = 2 := by
      have hflag := dpnIter_isStable_of_pos dpnSentinelStartScores dpnSentinelEndScores 3 1
        (dpnLoop dpnSentinelStartScores dpnSentinelEndScores 3 1) (by omega)
      rw [hs2all 1, h1s, h1e, hendmask 1] at hflag
      simp only [beq_self_eq_true, Bool.and_self, Bool.or_true] at hflag
      have hcs := dpnIter_currentStart_of_pos dpnSentinelStartScores dpnSentinelEndScores 3 1
        (dpnLoop dpnSentinelStartScores dpnSentinelEndScores 3 1) (by omega)
      rw [hs2all 1, h1s, h1e, hendmask 1] at hcs
      simp only [beq_self_eq_true, Bool.and_self, Bool.or_true, if_pos] at hcs
      have hce := dpnIter_currentEnd_of_pos dpnSentinelStartScores dpnSentinelEndScores 3 1
        (dpnLoop dpnSentinelStartScores dpnSentinelEndScores 3 1) (by omega)
      rw [hs2all 1, h1s, h1e, hendmask 1] at hce
      simp only [beq_self_eq_true, Bool.and_self, Bool.or_true, if_pos] at hce
      exact ⟨hflag, hcs, hce⟩
    have h3 := dpn_latch_step dpnSentinelStartScores dpnSentinelEndScores 3 2
      (dpnLoop dpnSentinelStartScores dpnSentinelEndScores 3 2) (by omega) h2.1
    have h4 := dpn_latch_step dpnSentinelStartScores dpnSentinelEndScores 3 3
      (dpnLoop dpnSentinelStartScores dpnSentinelEndScores 3 3) (by omega) h3.1
    show (dpnIter dpnSentinelStartScores dpnSentinelEndScores 3 3
      (dpnLoop dpnSentinelStartScores dpnSentinelEndScores 3 3)).currentStart = 3 - 1
    rw [h4.2.1]
    show (dpnIter dpnSentinelStartScores dpnSentinelEndScores 3 2
      (dpnLoop dpnSentinelStartScores dpnSentinelEndScores 3 2)).currentStart = 3 - 1
    rw [h3.2.1, h2.2.1]

/-- Witness for C9 at a concrete raw start scorer and augmented context length
4 padded to width 5. -/
theorem spn_sentinel_never_selectable_witness :
    argmaxIdx (spnHmn (fun _ => 0) 4) 5 < 4 - 1 :=
  (spn_sentinel_never_selectable (fun _ => 0) 4 5 (by omega) (by omega)).2.1
